import Mathlib

/-!
Shallow embedding of src/main.py: the poll-dedupe-notify pipeline of a
Twitter-to-Telegram notification bot.  Pure functions model the source
functions; external effects (HTTP responses, the Telegram sink, the clock,
file contents) are passed in explicitly as values.  Machine integers do not
overflow in the source (small Python ints), so Nat/Int are used directly.
-/

/-- A timeline post (tweet): a JSON object with a string id, a text and an
optional created_at field (src/main.py lines 146-149 request these fields;
lines 332-350 consume them).  Twitter tweet ids are strings in the JSON
payload, and the source sorts them with Python string comparison. -/
structure Tweet where
  id : String
  text : String
  created_at : Option String
  deriving Repr, DecidableEq

/-- src/main.py lines 17-30: mask a username for logging.  With an index the
mask is SECRET_USER_(index+1); without, SECRET_USER. -/
def mask_username (username : String) (index : Option Nat) : String :=
  match index with
  | some i => "SECRET_USER_" ++ toString (i + 1)
  | none => "SECRET_USER"

/-- The observable content of a durable store file: absent, unparseable JSON,
or a parsed value.  FileNotFoundError and json.JSONDecodeError are the two
exceptions caught by the loaders (src/main.py lines 49 and 72). -/
inductive FileContent (α : Type) where
  | missing
  | corrupt
  | valid (a : α)
  deriving Repr, DecidableEq

/-- tweet_history.json content: a JSON dict mapping account name to the list
of already-notified tweet ids, modelled as an association list. -/
abbrev History := List (String × List String)

/-- src/main.py lines 44-52: load the tweet history, returning the empty dict
when the file is missing or unparseable (the except branch also rewrites the
file, which does not change the returned value). -/
def load_tweet_history (file : FileContent History) : History :=
  match file with
  | .valid h => h
  | .missing => []
  | .corrupt => []

/-- A calendar date as carried by datetime in the source (only year, month
and day are relevant to the monthly-reset logic). -/
structure Date where
  year : Int
  month : Nat
  day : Nat
  deriving Repr, DecidableEq

/-- The initial reset date hard-coded at src/main.py lines 70 and 75. -/
def initialResetDate : Date := ⟨2025, 9, 27⟩

/-- state.json as parsed: either field may be absent (src/main.py lines
67-70 patch missing keys). -/
structure PersistedState where
  monthly_api_calls : Option Nat
  last_reset : Option Date
  deriving Repr, DecidableEq

/-- The in-memory counter state used by check_monthly_reset. -/
structure CounterState where
  monthly_api_calls : Nat
  last_reset : Date
  deriving Repr, DecidableEq

/-- src/main.py lines 63-76: load state.json; missing or unparseable file
yields the empty initial state, and individually missing keys are defaulted. -/
def load_state (file : FileContent PersistedState) : CounterState :=
  match file with
  | .valid s => ⟨s.monthly_api_calls.getD 0, s.last_reset.getD initialResetDate⟩
  | .missing => ⟨0, initialResetDate⟩
  | .corrupt => ⟨0, initialResetDate⟩

/-- src/main.py lines 237-254: reset the monthly API call counter when the
run date is on or after the 27th and its month differs from the stored
last_reset month.  On a reset, last_reset becomes the 27th of the current
month, or of the next month when the run day is past the 27th. -/
def check_monthly_reset (current : Date) (s : CounterState) : CounterState :=
  if 27 ≤ current.day ∧ current.month ≠ s.last_reset.month then
    let next_reset : Date :=
      if 27 < current.day then
        if current.month = 12 then ⟨current.year + 1, 1, 27⟩
        else ⟨current.year, current.month + 1, 27⟩
      else ⟨current.year, current.month, 27⟩
    { monthly_api_calls := 0, last_reset := next_reset }
  else s

/-- The provider response to the tweets request of attempt n (src/main.py
lines 152-195, observed at the call site): a 429 with an optional
x-rate-limit-reset header, a 200 with a data list, or any other failing
status (raise_for_status then the RequestException handler returns None). -/
inductive TweetsResp where
  | rateLimited (resetAt : Option Int)
  | ok (posts : List Tweet)
  | httpError
  deriving Repr

/-- Observable behaviour of one get_latest_tweet call tree: how many tweets
requests were performed, the sleep durations in order, and the returned
value. -/
structure FetchTrace where
  attempts : Nat
  sleeps : List Int
  result : Option Tweet
  deriving Repr, DecidableEq

/-- Number of recent posts requested from the provider (src/main.py line
147, "max_results": 5). -/
def max_results : Nat := 5

/-- Recursion core of get_latest_tweet (src/main.py lines 82-202).  The
source recurses with retry_count + 1 and bails out when retry_count >= 3
(line 95); here the remaining attempt budget 3 - retry_count is the
structural fuel, so fuel 0 is exactly the retry_count >= 3 bail-out.
On a 429 with a reset header (lines 156-167): wait = reset - now + 5; a
positive wait > 300 aborts the account; a positive wait <= 300 sleeps wait
seconds and retries.  A non-positive wait, and a 429 without the header,
fall through to the exponential backoff (lines 169-176):
backoff = min (60 * 2 ^ retry_count) 300, with a dead > 300 guard, then a
sleep and a retry.  A 200 returns the first tweet of the data list, None
when the list is empty (lines 191-195); other errors return None. -/
def fetchAux (responses : Nat → TweetsResp) : Nat → Int → Nat → FetchTrace
  | 0, _, _ => ⟨0, [], none⟩
  | fuel + 1, now, retry_count =>
    match responses retry_count with
    | .rateLimited (some reset) =>
      let wait : Int := reset - now + 5
      if 0 < wait then
        if 300 < wait then ⟨1, [], none⟩
        else
          let t := fetchAux responses fuel (now + wait) (retry_count + 1)
          ⟨t.attempts + 1, wait :: t.sleeps, t.result⟩
      else
        let backoff : Int := min (60 * 2 ^ retry_count) 300
        if 300 < backoff then ⟨1, [], none⟩
        else
          let t := fetchAux responses fuel (now + backoff) (retry_count + 1)
          ⟨t.attempts + 1, backoff :: t.sleeps, t.result⟩
    | .rateLimited none =>
      let backoff : Int := min (60 * 2 ^ retry_count) 300
      if 300 < backoff then ⟨1, [], none⟩
      else
        let t := fetchAux responses fuel (now + backoff) (retry_count + 1)
        ⟨t.attempts + 1, backoff :: t.sleeps, t.result⟩
    | .ok posts => ⟨1, [], posts.head?⟩
    | .httpError => ⟨1, [], none⟩

/-- get_latest_tweet with the clock value at entry and the starting
retry_count (0 at every call site in main, src/main.py line 292). -/
def get_latest_tweet (responses : Nat → TweetsResp) (now : Int)
    (retry_count : Nat) : FetchTrace :=
  fetchAux responses (3 - retry_count) now retry_count

/-- The per-user history update history[user].append(tweet_id)
(src/main.py lines 355 and 381): a plain list append. -/
def recordId (hist : List String) (tid : String) : List String :=
  hist ++ [tid]

/-- src/main.py lines 331-335: keep the fetched tweets whose id is not yet
in the history of this user (the history value is fixed during this filter). -/
def filterNew (hist : List String) (tweets : List Tweet) : List Tweet :=
  tweets.filter (fun t => decide (t.id ∉ hist))

/-- Python compares strings lexicographically by code point, which on Lean
strings is the order of the underlying character lists
(String.le_iff_toList_le).  This decision procedure computes on the
character lists so that concrete runs evaluate inside the kernel. -/
def decIdLe (a b : Tweet) : Decidable (a.id ≤ b.id) :=
  decidable_of_iff (a.id.toList ≤ b.id.toList) String.le_iff_toList_le.symm

/-- src/main.py lines 337-338 and 383-384:
new_tweets.sort(key=lambda x: x["id"]) — stable sort ascending by the id
string. -/
def sortByID (l : List Tweet) : List Tweet :=
  @List.insertionSort Tweet (fun a b => a.id ≤ b.id) (fun a b => decIdLe a b) l

/-- Outcome of the notification loop of one account: the tweet ids handed to the
sink in order, the ids whose delivery succeeded, and the final per-user
history list. -/
structure RunResult where
  attempted : List String
  sent : List String
  history : List String
  deriving Repr, DecidableEq

/-- src/main.py lines 341-359 (second draft of the send loop): for each new
tweet in order, hand it to the sink; on success append its id to the user
history; on failure only log — the loop continues with the next tweet.
The sink argument stands for send_telegram_message applied to the message
formatted from the tweet (lines 344-353). -/
def notifyLoop (send : Tweet → Bool) : List String → List Tweet → RunResult
  | hist, [] => ⟨[], [], hist⟩
  | hist, t :: ts =>
    if send t then
      let r := notifyLoop send (recordId hist t.id) ts
      ⟨t.id :: r.attempted, t.id :: r.sent, r.history⟩
    else
      let r := notifyLoop send hist ts
      ⟨t.id :: r.attempted, r.sent, r.history⟩

/-- Reconciliation of one account in the second draft (src/main.py lines
326-363): filter against history, sort ascending by id, then run the send
loop. -/
def processNewTweets (send : Tweet → Bool) (hist : List String)
    (tweets : List Tweet) : RunResult :=
  notifyLoop send hist (sortByID (filterNew hist tweets))

/-- src/main.py lines 377-381 (third draft): the filter records each new id
into the history at filter time, before any delivery is attempted, and the
history evolves while filtering. -/
def filterAndRecord : List String → List Tweet → List Tweet × List String
  | hist, [] => ([], hist)
  | hist, t :: ts =>
    if t.id ∈ hist then filterAndRecord hist ts
    else
      let r := filterAndRecord (recordId hist t.id) ts
      (t :: r.1, r.2)

/-- src/main.py lines 387-403 (third draft of the send loop): deliveries in
order; success and failure both leave the history untouched (ids were
already recorded at filter time); the loop never stops early.  Returns
(attempted ids, successfully sent ids). -/
def notifyLoopV3 (send : Tweet → Bool) : List Tweet → List String × List String
  | [] => ([], [])
  | t :: ts =>
    let r := notifyLoopV3 send ts
    if send t then (t.id :: r.1, t.id :: r.2) else (t.id :: r.1, r.2)

/-- Reconciliation of one account in the third draft (src/main.py lines
364-407). -/
def processNewTweetsV3 (send : Tweet → Bool) (hist : List String)
    (tweets : List Tweet) : RunResult :=
  let fr := filterAndRecord hist tweets
  let nl := notifyLoopV3 send (sortByID fr.1)
  ⟨nl.1, nl.2, fr.2⟩

/-- The first draft of the per-account body (src/main.py lines 289-317 with
the processing of lines 326-363): tweet_data = get_latest_tweet(user); when
it is None the account is skipped, otherwise tweets = [tweet_data] (line
306) is reconciled against the history. -/
def checkAccount (send : Tweet → Bool) (responses : Nat → TweetsResp)
    (now : Int) (hist : List String) : RunResult :=
  match (get_latest_tweet responses now 0).result with
  | none => ⟨[], [], hist⟩
  | some t => processNewTweets send hist [t]

/-- The data object of the user-lookup response (src/main.py lines 107-142):
optional username, display name and id fields. -/
structure LookupData where
  username : Option String
  name : Option String
  uid : Option String
  deriving Repr, DecidableEq

/-- A user-lookup response: HTTP status code plus the optional data object. -/
structure LookupResp where
  code : Nat
  data : Option LookupData
  deriving Repr, DecidableEq

/-- src/main.py lines 124-129: the response dump is logged with the username
field masked through mask_username and the name field replaced by
[MASKED_NAME]; the id field is logged verbatim.  (The JSON rendering is
abbreviated; field order and the masking are the load-bearing part.) -/
def renderLookupData : Option LookupData → String
  | none => "no data"
  | some d =>
    "data: username=" ++
      (match d.username with
       | some u => mask_username u none
       | none => "absent") ++
    " name=" ++ (match d.name with | some _ => "[MASKED_NAME]" | none => "absent") ++
    " id=" ++ d.uid.getD "absent"

/-- The log line of src/main.py line 139, emitted when the lookup succeeded
but the data object carries no id: it interpolates the raw username. -/
def missingIdLog (username : String) : String :=
  "Could not find user ID for @" ++ username ++
    ". This might be due to account privacy settings or suspension."

/-- The log lines of the user-lookup phase of get_latest_tweet (src/main.py
lines 115-142) as a function of the username and the lookup response:
line 115 (masked), then on 400 line 119 (masked); otherwise the masked dump
of line 129, then on 404 line 132 (masked), on another error status the
RequestException handler of line 198 (masked), and on a missing user id the
unmasked message of line 139. -/
def get_user_logs (username : String) (resp : LookupResp) : List String :=
  let getting := "Getting user ID for " ++ mask_username username none
  if resp.code = 400 then
    [getting, "Invalid username " ++ mask_username username none]
  else
    let dump := "User lookup response: " ++ renderLookupData resp.data
    if resp.code = 404 then
      [getting, dump, "User " ++ mask_username username none ++ " not found"]
    else if resp.code ≠ 200 then
      [getting, dump,
        "Twitter API error for " ++ mask_username username none ++ ": HTTPError"]
    else
      match resp.data with
      | none => [getting, dump, missingIdLog username]
      | some d =>
        match d.uid with
        | none => [getting, dump, missingIdLog username]
        | some _ => [getting, dump]

/-- Whether the first character list occurs at the head of the second. -/
def charsAtHead : List Char → List Char → Bool
  | [], _ => true
  | _ :: _, [] => false
  | c :: cs, d :: ds => c == d && charsAtHead cs ds

/-- Whether the needle occurs as a contiguous run inside the haystack. -/
def charsOccur (needle : List Char) : List Char → Bool
  | [] => needle.isEmpty
  | c :: cs => charsAtHead needle (c :: cs) || charsOccur needle cs

/-- Whether the string needle occurs as a substring of msg (used to state
that a raw username appears in a log line). -/
def containsRaw (needle msg : String) : Bool :=
  charsOccur needle.data msg.data

/-- Concrete post with id 3 (the spec scenario posts are written by id). -/
def tweet3 : Tweet := ⟨"3", "post three", none⟩

/-- Concrete post with id 4. -/
def tweet4 : Tweet := ⟨"4", "post four", none⟩

/-- A second distinct post carrying the same id 4. -/
def tweet4b : Tweet := ⟨"4", "post four again", none⟩

/-- Concrete post with id 5. -/
def tweet5 : Tweet := ⟨"5", "post five", none⟩

/-- A sink that delivers every message. -/
def sendAll : Tweet → Bool := fun _ => true

/-- A sink for which exactly the delivery of post 4 fails. -/
def sendFail4 : Tweet → Bool := fun t => !(t.id == "4")

/-- Provider returning posts 5, 3, 4 (newest-first) on every attempt. -/
def respPosts534 : Nat → TweetsResp := fun _ => .ok [tweet5, tweet3, tweet4]

/-- Provider: first attempt 429 with reset 25 s from epoch, then success. -/
def respReset25 : Nat → TweetsResp := fun n =>
  match n with
  | 0 => .rateLimited (some 25)
  | _ => .ok [tweet5]

/-- Provider: 429 with a reset 1000 s from epoch on every attempt. -/
def respReset1000 : Nat → TweetsResp := fun _ => .rateLimited (some 1000)

/-- Provider: first attempt 429 with a reset already in the past, then
success. -/
def respResetPast : Nat → TweetsResp := fun n =>
  match n with
  | 0 => .rateLimited (some (-10))
  | _ => .ok [tweet5]

/-- Provider: attempt n gets a 429 whose reset implies a 300 s wait given
the sleeps performed so far. -/
def respResetTreadmill : Nat → TweetsResp := fun n =>
  .rateLimited (some (295 + 300 * (n : Int)))

instance : IsTotal Tweet (fun a b => a.id ≤ b.id) :=
  ⟨fun a b => le_total a.id b.id⟩

instance : IsTrans Tweet (fun a b => a.id ≤ b.id) :=
  ⟨fun _ _ _ h1 h2 => le_trans h1 h2⟩

/-- The send loop hands every tweet of its input list to the sink, in list
order, whether or not earlier deliveries failed. -/
theorem notifyLoop_attempted (send : Tweet → Bool) (hist : List String)
    (ts : List Tweet) :
    (notifyLoop send hist ts).attempted = ts.map Tweet.id := by
  induction ts generalizing hist with
  | nil => rfl
  | cons t ts ih =>
    simp only [notifyLoop]
    cases h : send t <;> simp [ih]

/-- The send loop appends exactly the successfully sent ids to the history
it started from. -/
theorem notifyLoop_history (send : Tweet → Bool) (hist : List String)
    (ts : List Tweet) :
    (notifyLoop send hist ts).history = hist ++ (notifyLoop send hist ts).sent := by
  induction ts generalizing hist with
  | nil => simp [notifyLoop]
  | cons t ts ih =>
    simp only [notifyLoop]
    cases h : send t
    · simp [ih hist]
    · simp only [recordId] at ih ⊢
      simp [ih (hist ++ [t.id])]

/-- Reconciliation attempts exactly the sorted new ids. -/
theorem processNewTweets_attempted (send : Tweet → Bool) (hist : List String)
    (tweets : List Tweet) :
    (processNewTweets send hist tweets).attempted =
      (sortByID (filterNew hist tweets)).map Tweet.id :=
  notifyLoop_attempted send hist (sortByID (filterNew hist tweets))

/-- The final history of reconciliation is the starting history plus the sent
ids. -/
theorem processNewTweets_history (send : Tweet → Bool) (hist : List String)
    (tweets : List Tweet) :
    (processNewTweets send hist tweets).history =
      hist ++ (processNewTweets send hist tweets).sent :=
  notifyLoop_history send hist (sortByID (filterNew hist tweets))

/-- Unfolding: a 429 with a reset hint whose wait is positive and within the
cap sleeps the wait and recurses with the next retry_count. -/
theorem fetchAux_rl_wait (responses : Nat → TweetsResp) (fuel : Nat)
    (now reset : Int) (rc : Nat)
    (h : responses rc = .rateLimited (some reset))
    (h1 : 0 < reset - now + 5) (h2 : reset - now + 5 ≤ 300) :
    fetchAux responses (fuel + 1) now rc =
      ⟨(fetchAux responses fuel (now + (reset - now + 5)) (rc + 1)).attempts + 1,
       (reset - now + 5) ::
         (fetchAux responses fuel (now + (reset - now + 5)) (rc + 1)).sleeps,
       (fetchAux responses fuel (now + (reset - now + 5)) (rc + 1)).result⟩ := by
  simp only [fetchAux, h]
  rw [if_pos h1, if_neg (not_lt.mpr h2)]

/-- Unfolding: a 429 with a reset hint whose wait exceeds the 300 s cap
returns None at once: no sleep, no further attempt. -/
theorem fetchAux_rl_skip (responses : Nat → TweetsResp) (fuel : Nat)
    (now reset : Int) (rc : Nat)
    (h : responses rc = .rateLimited (some reset))
    (h2 : 300 < reset - now + 5) :
    fetchAux responses (fuel + 1) now rc = ⟨1, [], none⟩ := by
  simp only [fetchAux, h]
  rw [if_pos (lt_trans (by omega) h2), if_pos h2]

/-- Unfolding: a 429 with a reset hint whose wait is non-positive falls
through to the exponential backoff: sleep min (60 * 2 ^ rc) 300, then
recurse. -/
theorem fetchAux_rl_nonpos (responses : Nat → TweetsResp) (fuel : Nat)
    (now reset : Int) (rc : Nat)
    (h : responses rc = .rateLimited (some reset))
    (h1 : reset - now + 5 ≤ 0) :
    fetchAux responses (fuel + 1) now rc =
      ⟨(fetchAux responses fuel (now + min (60 * 2 ^ rc) 300) (rc + 1)).attempts + 1,
       min (60 * 2 ^ rc) 300 ::
         (fetchAux responses fuel (now + min (60 * 2 ^ rc) 300) (rc + 1)).sleeps,
       (fetchAux responses fuel (now + min (60 * 2 ^ rc) 300) (rc + 1)).result⟩ := by
  simp only [fetchAux, h]
  rw [if_neg (not_lt.mpr h1), if_neg (not_lt.mpr (min_le_right _ _))]

/-- Unfolding: a 429 without a reset hint uses the exponential backoff. -/
theorem fetchAux_rl_none (responses : Nat → TweetsResp) (fuel : Nat)
    (now : Int) (rc : Nat)
    (h : responses rc = .rateLimited none) :
    fetchAux responses (fuel + 1) now rc =
      ⟨(fetchAux responses fuel (now + min (60 * 2 ^ rc) 300) (rc + 1)).attempts + 1,
       min (60 * 2 ^ rc) 300 ::
         (fetchAux responses fuel (now + min (60 * 2 ^ rc) 300) (rc + 1)).sleeps,
       (fetchAux responses fuel (now + min (60 * 2 ^ rc) 300) (rc + 1)).result⟩ := by
  simp only [fetchAux, h]
  rw [if_neg (not_lt.mpr (min_le_right _ _))]

/-- Unfolding: a 200 returns the head of the data list with no sleep and no
retry. -/
theorem fetchAux_ok (responses : Nat → TweetsResp) (fuel : Nat) (now : Int)
    (rc : Nat) (posts : List Tweet) (h : responses rc = .ok posts) :
    fetchAux responses (fuel + 1) now rc = ⟨1, [], posts.head?⟩ := by
  simp only [fetchAux, h]

/-- Unfolding: any other failing status ends the call with no sleep and no
retry (raise_for_status feeds the RequestException handler). -/
theorem fetchAux_err (responses : Nat → TweetsResp) (fuel : Nat) (now : Int)
    (rc : Nat) (h : responses rc = .httpError) :
    fetchAux responses (fuel + 1) now rc = ⟨1, [], none⟩ := by
  simp only [fetchAux, h]

/-- The attempt/sleep bounds for a single-attempt outcome. -/
theorem fetchBound_base (fuel : Nat) (s : List Int) (r : Option Tweet)
    (hs : s = []) :
    (FetchTrace.mk 1 s r).attempts ≤ fuel + 1 ∧
    (FetchTrace.mk 1 s r).sleeps.sum ≤ ((fuel + 1 : Nat) : Int) * 300 ∧
    ((FetchTrace.mk 1 s r).sleeps.all fun x => decide (x ≤ 300)) = true := by
  subst hs
  refine ⟨by dsimp only; omega, ?_, by simp⟩
  dsimp only
  simp only [List.sum_nil]
  positivity

/-- The attempt/sleep bounds propagate through one sleep-and-retry step. -/
theorem fetchBound_step (fuel : Nat) (w : Int) (t : FetchTrace)
    (hw : w ≤ 300)
    (ht : t.attempts ≤ fuel ∧ t.sleeps.sum ≤ (fuel : Int) * 300 ∧
      (t.sleeps.all fun x => decide (x ≤ 300)) = true) :
    (FetchTrace.mk (t.attempts + 1) (w :: t.sleeps) t.result).attempts ≤ fuel + 1 ∧
    (FetchTrace.mk (t.attempts + 1) (w :: t.sleeps) t.result).sleeps.sum ≤
      ((fuel + 1 : Nat) : Int) * 300 ∧
    ((FetchTrace.mk (t.attempts + 1) (w :: t.sleeps) t.result).sleeps.all
      fun x => decide (x ≤ 300)) = true := by
  obtain ⟨ia, is, il⟩ := ht
  refine ⟨by dsimp only; omega, ?_, ?_⟩
  · dsimp only
    rw [List.sum_cons]
    push_cast
    omega
  · dsimp only
    simp only [List.all_cons, Bool.and_eq_true, decide_eq_true_eq]
    exact ⟨hw, il⟩

/-- Every sleep performed by the retry loop is at most 300 s, the number of
attempts is at most the remaining budget, and the total slept time is at
most 300 s per budgeted attempt. -/
theorem fetchAux_bounded (responses : Nat → TweetsResp) :
    ∀ (fuel : Nat) (now : Int) (rc : Nat),
      (fetchAux responses fuel now rc).attempts ≤ fuel ∧
      (fetchAux responses fuel now rc).sleeps.sum ≤ (fuel : Int) * 300 ∧
      ((fetchAux responses fuel now rc).sleeps.all fun s => decide (s ≤ 300)) = true
  | 0, now, rc => by simp [fetchAux]
  | fuel + 1, now, rc => by
    have hb : min (60 * (2 : Int) ^ rc) 300 ≤ 300 := min_le_right _ _
    cases h : responses rc with
    | rateLimited r =>
      cases r with
      | some reset =>
        by_cases h1 : 0 < reset - now + 5
        · by_cases h2 : 300 < reset - now + 5
          · rw [fetchAux_rl_skip responses fuel now reset rc h h2]
            exact fetchBound_base fuel [] none rfl
          · rw [fetchAux_rl_wait responses fuel now reset rc h h1 (not_lt.mp h2)]
            exact fetchBound_step fuel _ _ (not_lt.mp h2)
              (fetchAux_bounded responses fuel (now + (reset - now + 5)) (rc + 1))
        · rw [fetchAux_rl_nonpos responses fuel now reset rc h (not_lt.mp h1)]
          exact fetchBound_step fuel _ _ hb
            (fetchAux_bounded responses fuel (now + min (60 * 2 ^ rc) 300) (rc + 1))
      | none =>
        rw [fetchAux_rl_none responses fuel now rc h]
        exact fetchBound_step fuel _ _ hb
          (fetchAux_bounded responses fuel (now + min (60 * 2 ^ rc) 300) (rc + 1))
    | ok posts =>
      rw [fetchAux_ok responses fuel now rc posts h]
      exact fetchBound_base fuel [] (posts.head?) rfl
    | httpError =>
      rw [fetchAux_err responses fuel now rc h]
      exact fetchBound_base fuel [] none rfl

/-- Sorting does not change membership. -/
theorem sortByID_mem {l : List Tweet} {t : Tweet} : t ∈ sortByID l ↔ t ∈ l := by
  unfold sortByID
  exact @List.mem_insertionSort Tweet (fun a b => a.id ≤ b.id)
    (fun a b => decIdLe a b) l t

/-- Sorting does not change length. -/
theorem sortByID_length (l : List Tweet) : (sortByID l).length = l.length := by
  unfold sortByID
  exact @List.length_insertionSort Tweet (fun a b => a.id ≤ b.id)
    (fun a b => decIdLe a b) l

/-- The sorted output is ascending in the id order. -/
theorem sortByID_sorted (l : List Tweet) :
    List.Sorted (fun a b => a.id ≤ b.id) (sortByID l) := by
  unfold sortByID
  exact @List.sorted_insertionSort Tweet (fun a b => a.id ≤ b.id)
    (fun a b => decIdLe a b) inferInstance inferInstance l

/-- C1: with fetched ids [5,3,4], empty history and a sink failing exactly
for post 4, both send-loop drafts attempt post 5 after the failure of post
4 (the loop continues instead of stopping the batch); the second draft
leaves history [3,5] (post 5 recorded after the failure), and the third
draft records even the failed id 4, leaving history [5,3,4].  The claimed
fail-stop behaviour (post 5 not attempted, history exactly [3]) does not
hold in the code. -/
theorem c1_delivery_failure_continues_batch :
    processNewTweets sendFail4 [] [tweet5, tweet3, tweet4] =
      ⟨["3", "4", "5"], ["3", "5"], ["3", "5"]⟩ ∧
    processNewTweetsV3 sendFail4 [] [tweet5, tweet3, tweet4] =
      ⟨["3", "4", "5"], ["3", "5"], ["5", "3", "4"]⟩ :=
  ⟨rfl, rfl⟩

/-- C2 (amended): reconciliation attempts notifications in ascending id
order (the batch handed to the sink is sorted by id before sending), but
because get_latest_tweet returns only the first element of the provider
response, a full account check on fetched ids [5,3,4] with empty history
notifies only post 5. -/
theorem c2_sorted_ascending_single_candidate :
    (∀ (send : Tweet → Bool) (hist : List String) (tweets : List Tweet),
      List.Sorted (fun a b : String => a ≤ b)
        ((processNewTweets send hist tweets).attempted)) ∧
    (checkAccount sendAll respPosts534 0 []).attempted = ["5"] := by
  constructor
  · intro send hist tweets
    rw [processNewTweets_attempted]
    exact List.Pairwise.map Tweet.id (fun a b h => h)
      (sortByID_sorted (filterNew hist tweets))
  · rfl

/-- C2 counterexample: on fetched ids [5,3,4] with empty history the
pipeline notifies exactly post 5, not the claimed sequence 3,4,5. -/
theorem c2_order_534_gives_5_only :
    (checkAccount sendAll respPosts534 0 []).attempted = ["5"] ∧
    (checkAccount sendAll respPosts534 0 []).attempted ≠ ["3", "4", "5"] :=
  ⟨rfl, by decide⟩

/-- C3 (amended): a second reconciliation run against the history produced
by the first run, with the same fetch result, never even attempts an id the
first run delivered successfully. -/
theorem c3_rerun_attempts_no_sent_id (send : Tweet → Bool)
    (hist : List String) (tweets : List Tweet) :
    ((processNewTweets send (processNewTweets send hist tweets).history
        tweets).attempted.all
      fun i => !decide (i ∈ (processNewTweets send hist tweets).sent)) = true := by
  rw [List.all_eq_true]
  intro i hi
  simp only [Bool.not_eq_true', decide_eq_false_iff_not]
  intro hmem
  rw [processNewTweets_attempted] at hi
  rcases List.mem_map.mp hi with ⟨t, ht, hid⟩
  have ht2 : t ∈ filterNew (processNewTweets send hist tweets).history tweets :=
    sortByID_mem.mp ht
  have hnot : t.id ∉ (processNewTweets send hist tweets).history :=
    of_decide_eq_true (List.mem_filter.mp ht2).2
  rw [processNewTweets_history] at hnot
  exact hnot (List.mem_append_right hist (hid ▸ hmem))

/-- C3 counterexample: the record operation is a plain list append, so
recording an id already present is not a no-op; the duplicate-append is
reachable — a fetch result containing id 4 twice over empty history sends
id 4 twice in one run and leaves the duplicate in history. -/
theorem c3_record_not_noop :
    ("4" ∈ (["4"] : List String)) ∧ recordId ["4"] "4" ≠ ["4"] ∧
    processNewTweets sendAll [] [tweet4, tweet4b] =
      ⟨["4", "4"], ["4", "4"], ["4", "4"]⟩ :=
  ⟨by decide, by decide, rfl⟩

/-- C4: a rate-limit response carrying a reset hint: when the computed wait
(reset - now + 5) is positive and at most 300 s, exactly one sleep of that
wait happens followed by exactly one retry (two attempts in total when the
retry succeeds); when the wait exceeds 300 s the call ends at once — one
attempt, no sleep, no retry, result None — and the account contributes no
notification attempt. -/
theorem c4_rate_limit_reset_hint (responses : Nat → TweetsResp)
    (now reset : Int) (t : Tweet)
    (h0 : responses 0 = .rateLimited (some reset)) :
    (0 < reset - now + 5 → reset - now + 5 ≤ 300 → responses 1 = .ok [t] →
      get_latest_tweet responses now 0 = ⟨2, [reset - now + 5], some t⟩) ∧
    (300 < reset - now + 5 →
      get_latest_tweet responses now 0 = ⟨1, [], none⟩ ∧
      ∀ (send : Tweet → Bool) (hist : List String),
        checkAccount send responses now hist = ⟨[], [], hist⟩) := by
  constructor
  · intro h1 h2 h3
    show fetchAux responses (2 + 1) now 0 = _
    rw [fetchAux_rl_wait responses 2 now reset 0 h0 h1 h2]
    rw [show fetchAux responses 2 (now + (reset - now + 5)) 1 = ⟨1, [], some t⟩
        from fetchAux_ok responses 1 (now + (reset - now + 5)) 1 [t] h3]
  · intro h2
    have he : get_latest_tweet responses now 0 = ⟨1, [], none⟩ := by
      show fetchAux responses (2 + 1) now 0 = _
      exact fetchAux_rl_skip responses 2 now reset 0 h0 h2
    refine ⟨he, fun send hist => ?_⟩
    simp [checkAccount, he]

/-- C4 witness: with a reset hint 25 s after an epoch-zero clock the wait is
30 s — one sleep of 30 then one successful retry; with a reset hint at
1000 s the wait is 1005 s > 300 — the account is skipped with no sleep. -/
theorem c4_rate_limit_reset_hint_witness :
    get_latest_tweet respReset25 0 0 = ⟨2, [30], some tweet5⟩ ∧
    get_latest_tweet respReset1000 0 0 = ⟨1, [], none⟩ := by
  constructor
  · have h := (c4_rate_limit_reset_hint respReset25 0 25 tweet5 rfl).1
      (by decide) (by decide) rfl
    norm_num at h
    exact h
  · exact ((c4_rate_limit_reset_hint respReset1000 0 1000 tweet5 rfl).2
      (by decide)).1

/-- C5 (amended): a rate-limit response with a reset hint whose computed
wait is non-positive does not retry immediately: the code falls through to
the exponential-backoff branch, sleeps min (60 * 2 ^ attempt) 300 = 60 s on
the first attempt, and then retries (the retry counts as a retry attempt). -/
theorem c5_nonpositive_wait_backoff (responses : Nat → TweetsResp)
    (now reset : Int) (t : Tweet)
    (h0 : responses 0 = .rateLimited (some reset))
    (h1 : reset - now + 5 ≤ 0) (h2 : responses 1 = .ok [t]) :
    get_latest_tweet responses now 0 = ⟨2, [60], some t⟩ := by
  show fetchAux responses (2 + 1) now 0 = _
  rw [fetchAux_rl_nonpos responses 2 now reset 0 h0 h1]
  rw [show fetchAux responses 2 (now + min (60 * 2 ^ 0) 300) 1 = ⟨1, [], some t⟩
      from fetchAux_ok responses 1 (now + min (60 * 2 ^ 0) 300) 1 [t] h2]
  norm_num

/-- C5 witness: reset hint 10 s in the past, so the wait -5 is non-positive;
the trace sleeps 60 s once and then the retry succeeds. -/
theorem c5_nonpositive_wait_backoff_witness :
    ((-10 : Int) - 0 + 5 ≤ 0) ∧
    get_latest_tweet respResetPast 0 0 = ⟨2, [60], some tweet5⟩ :=
  ⟨by decide,
   c5_nonpositive_wait_backoff respResetPast 0 (-10) tweet5 rfl (by decide) rfl⟩

/-- C5 counterexample: with a reset hint in the past the claim predicts an
immediate retry with no sleep, but the trace contains a 60 s sleep. -/
theorem c5_past_reset_sleeps_sixty :
    get_latest_tweet respResetPast 0 0 = ⟨2, [60], some tweet5⟩ ∧
    (get_latest_tweet respResetPast 0 0).sleeps ≠ [] :=
  ⟨rfl, by decide⟩

/-- C6 (amended): the retry process of one account performs at most 3 fetch
attempts per run and each individual sleep is at most the 300 s cap, so the
total slept time is at most 900 s (3 sleeps of at most 300 s) — not at most
300 s as claimed. -/
theorem c6_attempts_and_sleep_bounds (responses : Nat → TweetsResp)
    (now : Int) :
    (get_latest_tweet responses now 0).attempts ≤ 3 ∧
    (get_latest_tweet responses now 0).sleeps.sum ≤ 900 ∧
    ((get_latest_tweet responses now 0).sleeps.all
      fun s => decide (s ≤ 300)) = true := by
  obtain ⟨ia, is, il⟩ := fetchAux_bounded responses 3 now 0
  refine ⟨ia, ?_, il⟩
  have h9 : ((3 : Nat) : Int) * 300 = 900 := by norm_num
  rw [h9] at is
  exact is

/-- C6 counterexample: three consecutive rate-limit responses whose reset
hints each imply a 300 s wait produce three sleeps of 300 s — 900 s in
total, exceeding the claimed 300 s bound on total sleep. -/
theorem c6_total_sleep_can_reach_900 :
    get_latest_tweet respResetTreadmill 0 0 = ⟨3, [300, 300, 300], none⟩ ∧
    (get_latest_tweet respResetTreadmill 0 0).sleeps.sum = 900 ∧
    ¬ (get_latest_tweet respResetTreadmill 0 0).sleeps.sum ≤ 300 :=
  ⟨rfl, by decide, by decide⟩

/-- C7 (amended): the concrete scenario holds — with lastReset 2025-09-27 a
run on 2025-10-27 resets the counter to 0 and advances lastReset to
2025-10-27 — and in general no run whose month equals the stored reset
month resets again, so a second run on the same day never resets.  (The
further claimed invariant that no boundary crossing is skipped fails; see
the counterexample.) -/
theorem c7_monthly_reset_scenario :
    (∀ c : Nat, check_monthly_reset ⟨2025, 10, 27⟩ ⟨c, ⟨2025, 9, 27⟩⟩ =
      ⟨0, ⟨2025, 10, 27⟩⟩) ∧
    ∀ (d : Date) (s : CounterState), d.month = s.last_reset.month →
      check_monthly_reset d s = s := by
  constructor
  · intro c
    rfl
  · intro d s h
    simp [check_monthly_reset, h]

/-- C7 witness: a run on 2025-10-28, in the same month as the stored reset
date 2025-10-27, does not reset. -/
theorem c7_monthly_reset_scenario_witness :
    check_monthly_reset ⟨2025, 10, 28⟩ ⟨3, ⟨2025, 10, 27⟩⟩ =
      ⟨3, ⟨2025, 10, 27⟩⟩ :=
  c7_monthly_reset_scenario.2 ⟨2025, 10, 28⟩ ⟨3, ⟨2025, 10, 27⟩⟩ rfl

/-- C7 counterexample: a reset on 2025-12-28 stores 2026-01-27 (a date in
the future) as lastReset, and then a run exactly on the 2026-01-27 boundary
does not reset (months equal), so that boundary crossing is skipped —
refuting "never skipping a crossing". -/
theorem c7_reset_skips_next_boundary :
    check_monthly_reset ⟨2025, 12, 28⟩ ⟨5, ⟨2025, 9, 27⟩⟩ =
      ⟨0, ⟨2026, 1, 27⟩⟩ ∧
    check_monthly_reset ⟨2026, 1, 27⟩ ⟨7, ⟨2026, 1, 27⟩⟩ =
      ⟨7, ⟨2026, 1, 27⟩⟩ :=
  ⟨rfl, rfl⟩

/-- C8: loading either store file when it is missing or unparseable yields
the empty initial state — empty history, counter 0 with the initial reset
date 2025-09-27 — instead of a fatal error (the loaders are total). -/
theorem c8_store_read_failures_degrade :
    load_tweet_history .missing = [] ∧ load_tweet_history .corrupt = [] ∧
    load_state .missing = ⟨0, initialResetDate⟩ ∧
    load_state .corrupt = ⟨0, initialResetDate⟩ ∧
    initialResetDate = ⟨2025, 9, 27⟩ :=
  ⟨rfl, rfl, rfl, rfl, rfl⟩

/-- C9: when the provider responds with a post list, get_latest_tweet
returns exactly the head of that list (at most one post, the first element
of the response), and consequently one account check hands at most one post
to the sink per run. -/
theorem c9_latest_tweet_head_only :
    (∀ (responses : Nat → TweetsResp) (now : Int) (posts : List Tweet),
      responses 0 = .ok posts →
      (get_latest_tweet responses now 0).result = posts.head?) ∧
    (∀ (send : Tweet → Bool) (responses : Nat → TweetsResp) (now : Int)
      (hist : List String),
      (checkAccount send responses now hist).attempted.length ≤ 1) := by
  constructor
  · intro responses now posts h
    show (fetchAux responses (2 + 1) now 0).result = posts.head?
    rw [fetchAux_ok responses 2 now 0 posts h]
  · intro send responses now hist
    unfold checkAccount
    cases hres : (get_latest_tweet responses now 0).result with
    | none => simp
    | some t =>
      show (processNewTweets send hist [t]).attempted.length ≤ 1
      rw [processNewTweets_attempted, List.length_map, sortByID_length]
      exact List.length_filter_le _ [t]

/-- C9 witness: on the fetched list [5,3,4] the result is exactly the head
(post 5) and the account check attempts at most one notification. -/
theorem c9_latest_tweet_head_only_witness :
    (get_latest_tweet respPosts534 0 0).result = some tweet5 ∧
    (checkAccount sendAll respPosts534 0 []).attempted.length ≤ 1 := by
  constructor
  · have h := c9_latest_tweet_head_only.1 respPosts534 0
      [tweet5, tweet3, tweet4] rfl
    simpa using h
  · exact c9_latest_tweet_head_only.2 sendAll respPosts534 0 []

/-- C10: the username-masking policy has a hole — on a user-lookup response
whose data object lacks an id field, the emitted log line interpolates the
raw account name; among the log lines of that path, exactly the
missing-user-id line contains the raw username. -/
theorem c10_missing_id_logs_raw_username :
    (get_user_logs "alice"
        ⟨200, some ⟨some "alice", some "Alice Smith", none⟩⟩).filter
      (containsRaw "alice") = [missingIdLog "alice"] ∧
    containsRaw "alice" (missingIdLog "alice") = true :=
  ⟨rfl, rfl⟩
